import Mathlib

/-!
Shallow embedding of the image-duplicate service core: the `VectorDB` class of
`app/db.py` (vector storage over a FAISS `IndexFlatL2`, request bookkeeping,
name derivation, reset) and the ingestion / duplicate-query endpoints of
`app/api.py`.  Embedding vectors are idealised as lists of integers (exact
arithmetic in place of float32), distances are exact squared Euclidean values,
and the FAISS index is modelled by the list of vectors it holds, searched by
brute force exactly as `IndexFlatL2` specifies: per query the `k` smallest
(distance, index) pairs in ascending (distance, index) order, padded with
(FLT_MAX, -1) entries when the index holds fewer than `k` vectors.
-/

/-- Squared Euclidean (L2²) distance between two vectors, the metric of
`faiss.IndexFlatL2`. -/
def sqDist (u v : List Int) : Int :=
  ((List.zip u v).map (fun p => (p.1 - p.2) ^ 2)).sum

/-- Largest finite float32 value, `2^128 - 2^104` (see `FLT_MAX_eq`); FAISS
fills the distance column of missing results with FLT_MAX. -/
def FLT_MAX : Int := 340282346638528859811704183484516925440

/-- `(distance, index)` scores of a query `q` against every vector of the
corpus, indices counted from `i0`. -/
def scoredList (q : List Int) : Nat → List (List Int) → List (Int × Int)
  | _, [] => []
  | i0, v :: rest => (sqDist q v, (i0 : Int)) :: scoredList q (i0 + 1) rest

/-- Insert a `(distance, index)` pair into a list sorted by ascending
distance, ties by ascending index. -/
def insertPair (x : Int × Int) : List (Int × Int) → List (Int × Int)
  | [] => [x]
  | y :: ys =>
    if x.1 < y.1 ∨ (x.1 = y.1 ∧ x.2 ≤ y.2) then x :: y :: ys
    else y :: insertPair x ys

/-- Sort `(distance, index)` pairs by ascending distance, ties by ascending
index. -/
def sortPairs : List (Int × Int) → List (Int × Int)
  | [] => []
  | x :: xs => insertPair x (sortPairs xs)

/-- Model of `faiss.IndexFlatL2.search` for a single query vector: the `k`
nearest stored vectors as `(distance, index)` pairs in ascending order; when
the index holds fewer than `k` vectors the result is padded to length `k`
with `(FLT_MAX, -1)` sentinel entries. -/
def faiss_search_one (corpus : List (List Int)) (q : List Int) (k : Nat) :
    List (Int × Int) :=
  let top := (sortPairs (scoredList q 0 corpus)).take k
  top ++ List.replicate (k - top.length) (FLT_MAX, -1)

/-- State of the `VectorDB` class (`app/db.py`): vector dimension, the FAISS
index contents, the `vectors` list, the `request_map` dict (modelled as an
insertion-ordered association list) and the `image_names` list. -/
structure VectorDB where
  dim : Nat
  index : List (List Int)
  vectors : List (List Int)
  request_map : List (String × Nat × Nat)
  image_names : List String
deriving DecidableEq, Repr

/-- `VectorDB.__init__`: empty store of dimension `dim`. -/
def VectorDB.init (dim : Nat) : VectorDB :=
  { dim := dim, index := [], vectors := [], request_map := [], image_names := [] }

/-- Python dict assignment `m[key] = v` on an insertion-ordered dict with
unique keys: overwrite the binding in place if the key is present, otherwise
append a new binding at the end. -/
def dictSet : List (String × Nat × Nat) → String → Nat × Nat →
    List (String × Nat × Nat)
  | [], key, v => [(key, v)]
  | p :: rest, key, v =>
    if p.1 = key then (key, v) :: rest else p :: dictSet rest key v

/-- `VectorDB.add_vectors`: `np.array(vectors, dtype='float32')` yields a
2-dimensional array exactly when the batch is nonempty and homogeneous, and
the guard then demands second dimension `dim`; this is folded into the single
condition `vectors ≠ [] ∧ every vector has length dim`.  On failure a
`ValueError` is raised before any mutation; on success the FAISS index, the
name list, the request map and the vector list are updated in source order.
Returns the new state and `none`, or the unchanged state and the error. -/
def add_vectors (db : VectorDB) (request_id : String)
    (vectors : List (List Int)) : VectorDB × Option String :=
  if vectors ≠ [] ∧ ∀ v ∈ vectors, v.length = db.dim then
    let start_index := db.vectors.length
    let end_index := start_index + vectors.length
    let new_image_names :=
      (List.range' (start_index + 1) (end_index - start_index)).map
        (fun i => "image_" ++ toString i)
    ({ db with
        index := db.index ++ vectors,
        image_names := db.image_names ++ new_image_names,
        request_map := dictSet db.request_map request_id (start_index, end_index),
        vectors := db.vectors ++ vectors }, none)
  else (db, some "DimensionMismatch")

/-- `VectorDB.search_duplicates`: fail when the request id is unknown,
otherwise run the FAISS search with the request's `vectors[start:end]` slice
as queries; entry `i` of the result is the hit list of query vector `i`
(the dict key `"vector_i"` of the source). -/
def search_duplicates (db : VectorDB) (request_id : String) (k : Nat) :
    Except String (List (List (Int × Int))) :=
  match db.request_map.lookup request_id with
  | none => .error "Request ID not found"
  | some (s, e) =>
    let query_vectors := (db.vectors.drop s).take (e - s)
    .ok (query_vectors.map (fun q => faiss_search_one db.index q k))

/-- `VectorDB.get_image_name`: the stored name for an in-range index, `None`
otherwise. -/
def VectorDB.get_image_name (db : VectorDB) (index : Int) : Option String :=
  if 0 ≤ index ∧ index < (db.image_names.length : Int) then
    db.image_names[index.toNat]?
  else none

/-- `VectorDB.reset`: clear the FAISS index and every internal list/dict. -/
def VectorDB.reset (db : VectorDB) : VectorDB :=
  { db with index := [], vectors := [], request_map := [], image_names := [] }

/-- The duplicate-accumulation loop of `find_duplicates` (`app/api.py`): for
hit list `i` (current corpus index `cur + i`) keep every hit whose index
differs from `cur + i` and whose distance is at most `threshold`; the
resulting list, read as a set, is the Python `all_duplicates` set. -/
def collect_duplicates (threshold : Int) : Nat → List (List (Int × Int)) → List Int
  | _, [] => []
  | cur, hits :: rest =>
    (hits.filter (fun p => decide (p.2 ≠ (cur : Int) ∧ p.1 ≤ threshold))).map Prod.snd
      ++ collect_duplicates threshold (cur + 1) rest

/-- The `all_duplicates` set computed by the `/duplicates/{request_id}`
endpoint: resolve the request's start index, run `search_duplicates`, and
filter with self-exclusion by index and inclusive threshold comparison. -/
def all_duplicates (db : VectorDB) (request_id : String) (threshold : Int)
    (k : Nat) : Except String (List Int) :=
  match db.request_map.lookup request_id with
  | none => .error "Request ID not found"
  | some (s, _) =>
    match search_duplicates db request_id k with
    | .error e => .error e
    | .ok results => .ok (collect_duplicates threshold s results)

/-- Response of the `/duplicates/{request_id}` endpoint. -/
inductive DupResponse where
  | noDuplicates
  | duplicates (names : List (Option String))
deriving DecidableEq, Repr

/-- `find_duplicates` (`app/api.py`): 404 on an unknown request id, the
"No duplicates found" message on an empty duplicate set, otherwise the
duplicate indices translated through `get_image_name`. -/
def find_duplicates (db : VectorDB) (request_id : String) (threshold : Int)
    (k : Nat) : Except String DupResponse :=
  match all_duplicates db request_id threshold k with
  | .error e => .error e
  | .ok dups =>
    if dups = [] then .ok .noDuplicates
    else .ok (.duplicates (dups.dedup.map db.get_image_name))

/-- An uploaded file of the `/images` endpoint: content type and raw bytes. -/
structure UploadFile where
  content_type : String
  content : List Nat
deriving DecidableEq, Repr

/-- A URL submission of the `/images` endpoint, modelled by the URL string
and the outcome of `requests.get`: either a `RequestException` (its message)
or a response carrying a status code and raw body content. -/
structure UrlFetch where
  url : String
  outcome : Except String (Nat × List Nat)
deriving Repr

/-- `process_image` (`app/api.py`): its `HTTPException`s are modelled as
`(status_code, detail)` pairs.  Bytes larger than 10 MiB are rejected with a
400 before the embedding model is invoked; embedding failures become a 500.
The embedding collaborator `image_to_vector` is a parameter. -/
def process_image (embed : List Nat → Except String (List Int))
    (image_bytes : List Nat) : Except (Nat × String) (List Int) :=
  if image_bytes.length > 10 * 1024 * 1024 then
    .error (400, "Image size exceeds 10 MB")
  else
    match embed image_bytes with
    | .ok v => .ok v
    | .error e => .error (500, "Error processing image: " ++ e)

/-- The multipart loop of `add_images`: reject unsupported content types with
a 400, process each file in order, abort on the first failure; exceptions
from `process_image` propagate unchanged. -/
def processFiles (embed : List Nat → Except String (List Int)) :
    List UploadFile → Except (Nat × String) (List (List Int))
  | [] => .ok []
  | f :: rest =>
    if f.content_type = "image/jpeg" ∨ f.content_type = "image/png" then
      match process_image embed f.content with
      | .error err => .error err
      | .ok v =>
        match processFiles embed rest with
        | .error err => .error err
        | .ok vs => .ok (v :: vs)
    else .error (400, "Unsupported file type: " ++ f.content_type)

/-- The Base64 loop of `add_images`: inputs are the already-decoded byte
payloads (the `b64decode` collaborator is outside the model).  The source
wraps the whole body in `except Exception as e`, which also catches the
`HTTPException`s of `process_image` and re-raises them as a 500 whose detail
embeds `str(e)` — for an `HTTPException` that is `"{status_code}: {detail}"`
— so the 400 size rejection becomes
`(500, "Error processing Base64 image: 400: Image size exceeds 10 MB")`. -/
def processBase64 (embed : List Nat → Except String (List Int)) :
    List (List Nat) → Except (Nat × String) (List (List Int))
  | [] => .ok []
  | b :: rest =>
    match process_image embed b with
    | .error err =>
      .error (500, "Error processing Base64 image: " ++ toString err.1 ++ ": "
        ++ err.2)
    | .ok v =>
      match processBase64 embed rest with
      | .error err => .error err
      | .ok vs => .ok (v :: vs)

/-- The URL loop of `add_images` (`app/api.py` lines 90-111): a failed fetch
(`RequestException`) becomes a 500; a non-200 status or an empty body becomes
a 400; otherwise the body goes through `process_image`, whose
`HTTPException`s are NOT caught by the `except requests.exceptions.
RequestException` clause and therefore propagate unchanged (an oversized
body fails with the 400 size error here). -/
def processUrls (embed : List Nat → Except String (List Int)) :
    List UrlFetch → Except (Nat × String) (List (List Int))
  | [] => .ok []
  | u :: rest =>
    match u.outcome with
    | .error msg => .error (500, "Error processing image from URL: " ++ msg)
    | .ok (status_code, content) =>
      if status_code ≠ 200 then
        .error (400, "Failed to download image from URL: " ++ u.url ++
          " (Status code: " ++ toString status_code ++ ")")
      else if content = [] then
        .error (400, "Downloaded image is empty from URL: " ++ u.url)
      else
        match process_image embed content with
        | .error err => .error err
        | .ok v =>
          match processUrls embed rest with
          | .error err => .error err
          | .ok vs => .ok (v :: vs)

/-- `add_images` (`app/api.py`), all three ingestion paths: collect vectors
from multipart files, Base64 payloads and URL fetches in source order, fail
with a 400 if none, commit via `add_vectors` (whose uncaught `ValueError`
surfaces as a 500), and report the batch size and the names recomputed from
the new store size. -/
def add_images (embed : List Nat → Except String (List Int)) (db : VectorDB)
    (request_id : String) (files : List UploadFile)
    (base64_images : List (List Nat)) (image_urls : List UrlFetch) :
    VectorDB × Except (Nat × String) (Nat × List String) :=
  match processFiles embed files with
  | .error err => (db, .error err)
  | .ok vs1 =>
    match processBase64 embed base64_images with
    | .error err => (db, .error err)
    | .ok vs2 =>
      match processUrls embed image_urls with
      | .error err => (db, .error err)
      | .ok vs3 =>
        let vectors := vs1 ++ vs2 ++ vs3
        if vectors = [] then (db, .error (400, "No valid images provided"))
        else
          match add_vectors db request_id vectors with
          | (db2, some e) => (db2, .error (500, e))
          | (db2, none) =>
            let start_index := db2.vectors.length - vectors.length
            let end_index := db2.vectors.length
            let image_names :=
              (List.range' (start_index + 1) (end_index - start_index)).map
                (fun i => "image_" ++ toString i)
            (db2, .ok (vectors.length, image_names))

/-- Invariant of the spec's data model: every registered range `(start, end)`
satisfies `start ≤ end ≤ N` where `N` is the current corpus size (`0 ≤ start`
holds by the `Nat` representation, as in the source where `start` is a list
length). -/
def RangesValid (db : VectorDB) : Prop :=
  ∀ p ∈ db.request_map, p.2.1 ≤ p.2.2 ∧ p.2.2 ≤ db.vectors.length

/-! ### Helper lemmas -/

theorem FLT_MAX_eq : FLT_MAX = 2 ^ 128 - 2 ^ 104 := by norm_num [FLT_MAX]

theorem dictSet_lookup_self (m : List (String × Nat × Nat)) (key : String)
    (v : Nat × Nat) : (dictSet m key v).lookup key = some v := by
  induction m with
  | nil => simp [dictSet]
  | cons p rest ih =>
    obtain ⟨k', v'⟩ := p
    by_cases hp : k' = key
    · simp [dictSet, hp]
    · have hbeq : (key == k') = false := by simp [Ne.symm hp]
      simp [dictSet, hp, List.lookup, hbeq, ih]

theorem dictSet_mem {m : List (String × Nat × Nat)} {key : String}
    {v : Nat × Nat} {p : String × Nat × Nat} (h : p ∈ dictSet m key v) :
    p ∈ m ∨ p = (key, v) := by
  induction m with
  | nil => simpa [dictSet] using h
  | cons q rest ih =>
    by_cases hq : q.1 = key
    · simp only [dictSet, hq, if_true, List.mem_cons] at h
      rcases h with h | h
      · exact Or.inr h
      · exact Or.inl (List.mem_cons_of_mem _ h)
    · simp only [dictSet, hq, if_false, List.mem_cons] at h
      rcases h with h | h
      · exact Or.inl (h ▸ List.mem_cons_self _ _)
      · rcases ih h with h' | h'
        · exact Or.inl (List.mem_cons_of_mem _ h')
        · exact Or.inr h'

theorem insertPair_perm (x : Int × Int) (l : List (Int × Int)) :
    List.Perm (insertPair x l) (x :: l) := by
  induction l with
  | nil => simp [insertPair]
  | cons y ys ih =>
    unfold insertPair
    split
    · exact List.Perm.refl _
    · exact (ih.cons y).trans (List.Perm.swap x y ys)

theorem sortPairs_perm (l : List (Int × Int)) : List.Perm (sortPairs l) l := by
  induction l with
  | nil => exact List.Perm.refl _
  | cons x xs ih => exact (insertPair_perm x (sortPairs xs)).trans (ih.cons x)

theorem length_sortPairs (l : List (Int × Int)) :
    (sortPairs l).length = l.length :=
  (sortPairs_perm l).length_eq

theorem length_scoredList (q : List Int) (i0 : Nat) (corpus : List (List Int)) :
    (scoredList q i0 corpus).length = corpus.length := by
  induction corpus generalizing i0 with
  | nil => rfl
  | cons v rest ih => simp [scoredList, ih]

theorem mem_scoredList {q : List Int} {d x : Int} :
    ∀ {i0 : Nat} {corpus : List (List Int)},
      (d, x) ∈ scoredList q i0 corpus ↔
        ∃ t, t < corpus.length ∧ x = ((i0 + t : Nat) : Int) ∧
          d = sqDist q (corpus.getD t []) := by
  intro i0 corpus
  induction corpus generalizing i0 with
  | nil => simp [scoredList]
  | cons v rest ih =>
    simp only [scoredList, List.mem_cons, ih, Prod.mk.injEq]
    constructor
    · rintro (⟨hd, hx⟩ | ⟨t, ht, hx, hd⟩)
      · exact ⟨0, by simp, by simp [hx], by simp [hd]⟩
      · refine ⟨t + 1, by simpa using ht, ?_, by simpa using hd⟩
        have harith : i0 + 1 + t = i0 + (t + 1) := by omega
        rw [hx, harith]
    · rintro ⟨t, ht, hx, hd⟩
      cases t with
      | zero => exact Or.inl ⟨by simpa using hd, by simpa using hx⟩
      | succ t' =>
        refine Or.inr ⟨t', by simpa using ht, ?_, by simpa using hd⟩
        have harith : i0 + 1 + t' = i0 + (t' + 1) := by omega
        rw [hx, harith]

theorem faiss_mem_elim {corpus : List (List Int)} {q : List Int} {k : Nat}
    {d x : Int} (h : (d, x) ∈ faiss_search_one corpus q k) :
    (d, x) ∈ scoredList q 0 corpus ∨ (d, x) = (FLT_MAX, -1) := by
  simp only [faiss_search_one] at h
  rcases List.mem_append.1 h with h1 | h2
  · exact Or.inl ((sortPairs_perm _).mem_iff.1 (List.mem_of_mem_take h1))
  · exact Or.inr (List.eq_of_mem_replicate h2)

theorem mem_collect_duplicates {θ j : Int} :
    ∀ {cur : Nat} {results : List (List (Int × Int))},
      j ∈ collect_duplicates θ cur results ↔
        ∃ i hits, results[i]? = some hits ∧
          ∃ d, (d, j) ∈ hits ∧ j ≠ ((cur + i : Nat) : Int) ∧ d ≤ θ := by
  intro cur results
  induction results generalizing cur with
  | nil => simp [collect_duplicates]
  | cons hits rest ih =>
    constructor
    · intro h
      simp only [collect_duplicates] at h
      rcases List.mem_append.1 h with h1 | h2
      · obtain ⟨p, hpf, hpj⟩ := List.mem_map.1 h1
        obtain ⟨hpmem, hpred⟩ := List.mem_filter.1 hpf
        obtain ⟨hne, hle⟩ := of_decide_eq_true hpred
        refine ⟨0, hits, by simp, p.1, ?_, ?_, hle⟩
        · rwa [← hpj, Prod.mk.eta]
        · simpa [hpj] using hne
      · obtain ⟨i, hits', hres, d, hd, hne, hle⟩ := ih.1 h2
        refine ⟨i + 1, hits', by simpa using hres, d, hd, ?_, hle⟩
        have harith : cur + 1 + i = cur + (i + 1) := by omega
        rwa [harith] at hne
    · rintro ⟨i, hits', hres, d, hd, hne, hle⟩
      simp only [collect_duplicates]
      cases i with
      | zero =>
        apply List.mem_append.2
        left
        obtain rfl : hits = hits' := by simpa using hres
        apply List.mem_map.2
        refine ⟨(d, j), List.mem_filter.2 ⟨hd, ?_⟩, rfl⟩
        exact decide_eq_true ⟨by simpa using hne, hle⟩
      | succ i' =>
        apply List.mem_append.2
        right
        apply ih.2
        refine ⟨i', hits', by simpa using hres, d, hd, ?_, hle⟩
        have harith : cur + 1 + i' = cur + (i' + 1) := by omega
        rwa [harith]

theorem slice_getElem? {l : List (List Int)} {s e i : Nat} (hi : i < e - s)
    (he : e ≤ l.length) :
    ((l.drop s).take (e - s))[i]? = some (l.getD (s + i) []) := by
  rw [List.getElem?_take_of_lt hi, List.getElem?_drop]
  have hlt : s + i < l.length := by omega
  rw [List.getElem?_eq_getElem hlt]
  simp [List.getD_eq_getElem?_getD, List.getElem?_eq_getElem hlt]

theorem search_duplicates_found {db : VectorDB} {rid : String} {k s e : Nat}
    (hlk : db.request_map.lookup rid = some (s, e)) :
    search_duplicates db rid k =
      .ok (((db.vectors.drop s).take (e - s)).map
        (fun q => faiss_search_one db.index q k)) := by
  simp [search_duplicates, hlk]

theorem add_vectors_pos (db : VectorDB) (rid : String) (vs : List (List Int))
    (hne : vs ≠ []) (hdim : ∀ v ∈ vs, v.length = db.dim) :
    add_vectors db rid vs =
      ({ db with
          index := db.index ++ vs,
          image_names := db.image_names ++
            (List.range' (db.vectors.length + 1) vs.length).map
              (fun i => "image_" ++ toString i),
          request_map := dictSet db.request_map rid
            (db.vectors.length, db.vectors.length + vs.length),
          vectors := db.vectors ++ vs }, none) := by
  unfold add_vectors
  rw [if_pos ⟨hne, hdim⟩]
  simp

/-! ### Claim theorems -/

/-- C1: an `add_vectors` call in which some vector of the batch has length
different from the store dimension `D` fails with the dimension-mismatch
error and commits nothing: the vector list, the FAISS index contents, the
request map and the name list are all unchanged (all-or-nothing per call). -/
theorem C1_add_dimension_mismatch_atomic (db : VectorDB) (rid : String)
    (vs : List (List Int)) (h : ∃ v ∈ vs, v.length ≠ db.dim) :
    (add_vectors db rid vs).2 = some "DimensionMismatch" ∧
    (add_vectors db rid vs).1.vectors = db.vectors ∧
    (add_vectors db rid vs).1.index = db.index ∧
    (add_vectors db rid vs).1.request_map = db.request_map ∧
    (add_vectors db rid vs).1.image_names = db.image_names := by
  have hneg : ¬(vs ≠ [] ∧ ∀ v ∈ vs, v.length = db.dim) := by
    rintro ⟨-, hall⟩
    obtain ⟨v, hv, hvne⟩ := h
    exact hvne (hall v hv)
  unfold add_vectors
  rw [if_neg hneg]
  exact ⟨rfl, rfl, rfl, rfl, rfl⟩

/-- C1 witness: adding a 1-dimensional vector to a store of dimension 2 fails
and leaves the store unchanged. -/
theorem C1_add_dimension_mismatch_atomic_witness :
    (∃ v ∈ [[(1 : Int)]], v.length ≠ (VectorDB.init 2).dim) ∧
    (add_vectors (VectorDB.init 2) "t" [[(1 : Int)]]).2 = some "DimensionMismatch" ∧
    (add_vectors (VectorDB.init 2) "t" [[(1 : Int)]]).1.vectors =
      (VectorDB.init 2).vectors := by
  refine ⟨by decide, ?_, ?_⟩
  · exact (C1_add_dimension_mismatch_atomic (VectorDB.init 2) "t" [[(1 : Int)]]
      (by decide)).1
  · exact (C1_add_dimension_mismatch_atomic (VectorDB.init 2) "t" [[(1 : Int)]]
      (by decide)).2.1

/-- C2: a successful `add_vectors` of a batch appended at index range
`[start, end)` succeeds with no error, grows the store by the batch size, and
assigns at every index `i` of the new range the name `"image_" ++ (i+1)`
(1-based naming). -/
theorem C2_assigned_names (db : VectorDB) (rid : String) (vs : List (List Int))
    (hne : vs ≠ []) (hdim : ∀ v ∈ vs, v.length = db.dim)
    (hnames : db.image_names.length = db.vectors.length) :
    (add_vectors db rid vs).2 = none ∧
    (add_vectors db rid vs).1.vectors.length = db.vectors.length + vs.length ∧
    ∀ i : Nat, db.vectors.length ≤ i → i < db.vectors.length + vs.length →
      (add_vectors db rid vs).1.image_names[i]? =
        some ("image_" ++ toString (i + 1)) := by
  rw [add_vectors_pos db rid vs hne hdim]
  refine ⟨rfl, by simp, ?_⟩
  intro i hge hlt
  have hL : db.image_names.length ≤ i := by omega
  rw [List.getElem?_append_right hL, List.getElem?_map, hnames,
    List.getElem?_range' (db.vectors.length + 1) 1
      (show i - db.vectors.length < vs.length by omega)]
  have harith : db.vectors.length + 1 + (i - db.vectors.length) = i + 1 := by
    omega
  simp [harith]

/-- C2 witness (Scenario A): ingesting 3 vectors into an empty store of
dimension 1 assigns names image_1, image_2, image_3 and leaves size 3. -/
theorem C2_assigned_names_witness :
    (add_vectors (VectorDB.init 1) "r" [[(0 : Int)], [1], [2]]).2 = none ∧
    (add_vectors (VectorDB.init 1) "r" [[(0 : Int)], [1], [2]]).1.vectors.length = 3 ∧
    (add_vectors (VectorDB.init 1) "r" [[(0 : Int)], [1], [2]]).1.image_names =
      ["image_1", "image_2", "image_3"] := by
  refine ⟨?_, ?_, by decide⟩
  · exact (C2_assigned_names (VectorDB.init 1) "r" [[(0 : Int)], [1], [2]]
      (by decide) (by decide) (by decide)).1
  · exact (C2_assigned_names (VectorDB.init 1) "r" [[(0 : Int)], [1], [2]]
      (by decide) (by decide) (by decide)).2.1

/-- C4 counterexample: after registering token "t" with range (0, 1), a second
`add_vectors` under the same token does not fail — it succeeds (`none` error)
and overwrites the token's record with the new range (1, 2), so the claim
that re-registration fails with a DuplicateToken error and leaves the record
unchanged is false. -/
theorem C4_counterexample :
    (add_vectors (VectorDB.init 1) "t" [[(5 : Int)]]).1.request_map.lookup "t" =
      some (0, 1) ∧
    (add_vectors (add_vectors (VectorDB.init 1) "t" [[(5 : Int)]]).1 "t"
      [[(6 : Int)]]).2 = none ∧
    (add_vectors (add_vectors (VectorDB.init 1) "t" [[(5 : Int)]]).1 "t"
      [[(6 : Int)]]).1.request_map.lookup "t" = some (1, 2) := by
  refine ⟨?_, ?_, ?_⟩ <;> rfl

/-- C4 (amended): re-registering a token that is already present does not
fail; the `add_vectors` call succeeds and the token's record is overwritten
with the newly appended range (last write wins). -/
theorem C4_reregister_overwrites (db : VectorDB) (rid : String)
    (vs : List (List Int)) (r0 : Nat × Nat)
    (_hprev : db.request_map.lookup rid = some r0)
    (hne : vs ≠ []) (hdim : ∀ v ∈ vs, v.length = db.dim) :
    (add_vectors db rid vs).2 = none ∧
    (add_vectors db rid vs).1.request_map.lookup rid =
      some (db.vectors.length, db.vectors.length + vs.length) := by
  rw [add_vectors_pos db rid vs hne hdim]
  exact ⟨rfl, dictSet_lookup_self _ _ _⟩

/-- C4 witness: concrete re-registration of token "t". -/
theorem C4_reregister_overwrites_witness :
    ((add_vectors (VectorDB.init 1) "t" [[(5 : Int)]]).1.request_map.lookup "t" =
      some (0, 1)) ∧
    (add_vectors (add_vectors (VectorDB.init 1) "t" [[(5 : Int)]]).1 "t"
      [[(6 : Int)]]).2 = none ∧
    (add_vectors (add_vectors (VectorDB.init 1) "t" [[(5 : Int)]]).1 "t"
      [[(6 : Int)]]).1.request_map.lookup "t" = some (1, 2) := by
  refine ⟨by decide, ?_, ?_⟩
  · exact (C4_reregister_overwrites (add_vectors (VectorDB.init 1) "t"
      [[(5 : Int)]]).1 "t" [[(6 : Int)]] (0, 1) (by decide) (by decide)
      (by decide)).1
  · exact (C4_reregister_overwrites (add_vectors (VectorDB.init 1) "t"
      [[(5 : Int)]]).1 "t" [[(6 : Int)]] (0, 1) (by decide) (by decide)
      (by decide)).2

/-- C6: looking up an unregistered token fails with the request-not-found
error, both at the store level (`search_duplicates`) and at the endpoint
level (`find_duplicates`); these operations take the store only as input and
return no state, exactly as the source functions mutate nothing. -/
theorem C6_unknown_token_not_found (db : VectorDB) (rid : String)
    (threshold : Int) (k : Nat)
    (h : db.request_map.lookup rid = none) :
    search_duplicates db rid k = .error "Request ID not found" ∧
    all_duplicates db rid threshold k = .error "Request ID not found" ∧
    find_duplicates db rid threshold k = .error "Request ID not found" := by
  refine ⟨?_, ?_, ?_⟩ <;>
    simp [search_duplicates, all_duplicates, find_duplicates, h]

/-- C6 witness: querying token "u" on a store that only knows "t". -/
theorem C6_unknown_token_not_found_witness :
    ((add_vectors (VectorDB.init 1) "t" [[(5 : Int)]]).1.request_map.lookup "u" =
      none) ∧
    find_duplicates (add_vectors (VectorDB.init 1) "t" [[(5 : Int)]]).1 "u" 1 3 =
      .error "Request ID not found" := by
  refine ⟨by decide, ?_⟩
  exact (C6_unknown_token_not_found (add_vectors (VectorDB.init 1) "t"
    [[(5 : Int)]]).1 "u" 1 3 (by decide)).2.2

/-- C7: `reset` fully clears the store — every token lookup afterwards fails,
corpus, FAISS index and name list are empty — and the next successful add
starts again at index 0, registering range (0, batch size) and assigning
first name "image_1". -/
theorem C7_reset_clears (db : VectorDB) (rid : String) (vs : List (List Int))
    (hne : vs ≠ []) (hdim : ∀ v ∈ vs, v.length = db.dim) :
    (∀ tok : String, (VectorDB.reset db).request_map.lookup tok = none) ∧
    (VectorDB.reset db).vectors = [] ∧
    (VectorDB.reset db).image_names = [] ∧
    (VectorDB.reset db).index = [] ∧
    (add_vectors (VectorDB.reset db) rid vs).2 = none ∧
    (add_vectors (VectorDB.reset db) rid vs).1.request_map.lookup rid =
      some (0, vs.length) ∧
    (add_vectors (VectorDB.reset db) rid vs).1.image_names[0]? =
      some "image_1" := by
  have hdim' : ∀ v ∈ vs, v.length = (VectorDB.reset db).dim := hdim
  rw [add_vectors_pos (VectorDB.reset db) rid vs hne hdim']
  refine ⟨fun tok => rfl, rfl, rfl, rfl, rfl, ?_, ?_⟩
  · simpa [VectorDB.reset] using dictSet_lookup_self [] rid (0, vs.length)
  · have hlen : 0 < vs.length := List.length_pos.2 hne
    show ((([] : List String) ++
      (List.range' (0 + 1) vs.length).map (fun i => "image_" ++ toString i)))[0]? =
        some "image_1"
    rw [List.nil_append, List.getElem?_map, List.getElem?_range' (0 + 1) 1 hlen]
    rfl

/-- C7 witness: reset of a populated store, then a fresh one-vector add. -/
theorem C7_reset_clears_witness :
    ((VectorDB.reset (add_vectors (VectorDB.init 1) "t" [[(5 : Int)]]).1).request_map.lookup "t" = none) ∧
    (VectorDB.reset (add_vectors (VectorDB.init 1) "t" [[(5 : Int)]]).1).vectors = [] ∧
    (add_vectors (VectorDB.reset (add_vectors (VectorDB.init 1) "t" [[(5 : Int)]]).1) "n" [[(7 : Int)]]).1.request_map.lookup "n" = some (0, 1) ∧
    (add_vectors (VectorDB.reset (add_vectors (VectorDB.init 1) "t" [[(5 : Int)]]).1) "n" [[(7 : Int)]]).1.image_names[0]? = some "image_1" := by
  refine ⟨(C7_reset_clears (add_vectors (VectorDB.init 1) "t" [[(5 : Int)]]).1
      "n" [[(7 : Int)]] (by decide) (by decide)).1 "t",
    (C7_reset_clears (add_vectors (VectorDB.init 1) "t" [[(5 : Int)]]).1
      "n" [[(7 : Int)]] (by decide) (by decide)).2.1, ?_, ?_⟩
  · simpa using (C7_reset_clears (add_vectors (VectorDB.init 1) "t"
      [[(5 : Int)]]).1 "n" [[(7 : Int)]] (by decide) (by decide)).2.2.2.2.2.1
  · exact (C7_reset_clears (add_vectors (VectorDB.init 1) "t"
      [[(5 : Int)]]).1 "n" [[(7 : Int)]] (by decide) (by decide)).2.2.2.2.2.2

/-- C10: `get_image_name` is total over all integer indices: inside
`[0, number of names)` it returns the stored name at that position, and for
any other integer — including negative indices — it returns `None` instead of
raising an out-of-range error. -/
theorem C10_get_image_name_total (db : VectorDB) (index : Int) :
    (0 ≤ index ∧ index < (db.image_names.length : Int) →
      db.get_image_name index = db.image_names[index.toNat]? ∧
      (db.get_image_name index).isSome = true) ∧
    (¬(0 ≤ index ∧ index < (db.image_names.length : Int)) →
      db.get_image_name index = none) := by
  constructor
  · intro h
    unfold VectorDB.get_image_name
    rw [if_pos h]
    refine ⟨rfl, ?_⟩
    have hlt : index.toNat < db.image_names.length := by omega
    simp [List.getElem?_eq_getElem hlt]
  · intro h
    unfold VectorDB.get_image_name
    rw [if_neg h]

/-- C10 witness: a store with one name answers index 0 with the name and
index -1 with `None`. -/
theorem C10_get_image_name_total_witness :
    ((VectorDB.mk 1 [[5]] [[5]] [("t", 0, 1)] ["image_1"]).get_image_name 0 =
        (VectorDB.mk 1 [[5]] [[5]] [("t", 0, 1)] ["image_1"]).image_names[(0 : Int).toNat]? ∧
      ((VectorDB.mk 1 [[5]] [[5]] [("t", 0, 1)] ["image_1"]).get_image_name 0).isSome = true) ∧
    (VectorDB.mk 1 [[5]] [[5]] [("t", 0, 1)] ["image_1"]).get_image_name (-1) =
      none := by
  exact ⟨(C10_get_image_name_total (VectorDB.mk 1 [[5]] [[5]] [("t", 0, 1)]
      ["image_1"]) 0).1 (by decide),
    (C10_get_image_name_total (VectorDB.mk 1 [[5]] [[5]] [("t", 0, 1)]
      ["image_1"]) (-1)).2 (by decide)⟩

/-- C8: the range invariant `start ≤ end ≤ N` for every registered record is
preserved by `add_vectors` (both success and failure) and by `reset`;
`search_duplicates`, `find_duplicates` and `get_image_name` take the store
only as input and return no state, as in the source, so they preserve it
trivially. -/
theorem C8_ranges_valid_preserved (db : VectorDB) (h : RangesValid db)
    (rid : String) (vs : List (List Int)) :
    RangesValid (add_vectors db rid vs).1 ∧
    RangesValid (VectorDB.reset db) := by
  constructor
  · by_cases hc : vs ≠ [] ∧ ∀ v ∈ vs, v.length = db.dim
    · rw [add_vectors_pos db rid vs hc.1 hc.2]
      intro p hp
      rcases dictSet_mem hp with hmem | heq
      · have hold := h p hmem
        refine ⟨hold.1, ?_⟩
        simp only [List.length_append]
        omega
      · subst heq
        refine ⟨by simp, ?_⟩
        simp [List.length_append]
    · unfold add_vectors
      rw [if_neg hc]
      exact h
  · intro p hp
    simp [VectorDB.reset] at hp

/-- C8 witness: the invariant holds on a populated store and is preserved by
a further add and by reset. -/
theorem C8_ranges_valid_preserved_witness :
    RangesValid (add_vectors (add_vectors (VectorDB.init 1) "t" [[(5 : Int)]]).1
      "u" [[(6 : Int)]]).1 ∧
    RangesValid (VectorDB.reset (add_vectors (VectorDB.init 1) "t"
      [[(5 : Int)]]).1) := by
  refine C8_ranges_valid_preserved (add_vectors (VectorDB.init 1) "t"
    [[(5 : Int)]]).1 ?_ "u" [[(6 : Int)]]
  show ∀ p ∈ (add_vectors (VectorDB.init 1) "t" [[(5 : Int)]]).1.request_map,
    p.2.1 ≤ p.2.2 ∧
      p.2.2 ≤ (add_vectors (VectorDB.init 1) "t" [[(5 : Int)]]).1.vectors.length
  decide

/-- C5 counterexample: searching a store holding N = 1 vector with k = 3 does
not return exactly the one stored (index, distance) pair: the result has
sentinel entries `(FLT_MAX, -1)` that correspond to no stored vector. -/
theorem C5_counterexample :
    faiss_search_one [[(0 : Int), 0]] [(0 : Int), 0] 3 =
      [(0, 0), (FLT_MAX, -1), (FLT_MAX, -1)] ∧
    (FLT_MAX, (-1 : Int)) ∈ faiss_search_one [[(0 : Int), 0]] [(0 : Int), 0] 3 ∧
    (FLT_MAX, (-1 : Int)) ∉ scoredList [(0 : Int), 0] 0 [[(0 : Int), 0]] := by
  refine ⟨?_, ?_, ?_⟩ <;> decide

/-- C5 (amended): a nearest-neighbor query with `k` larger than the store
size `N` returns a list of exactly `k` entries: the first `N` are precisely
the `N` stored vectors' (distance, index) pairs (every stored index appears,
with its true squared-L2 distance), and the remaining `k - N` entries are
`(FLT_MAX, -1)` sentinels. -/
theorem C5_underfull_search (corpus : List (List Int)) (q : List Int) (k : Nat)
    (h : corpus.length < k) :
    (faiss_search_one corpus q k).length = k ∧
    List.Perm ((faiss_search_one corpus q k).take corpus.length)
      (scoredList q 0 corpus) ∧
    (faiss_search_one corpus q k).drop corpus.length =
      List.replicate (k - corpus.length) (FLT_MAX, -1) ∧
    ∀ t : Nat, t < corpus.length →
      (sqDist q (corpus.getD t []), (t : Int)) ∈
        (faiss_search_one corpus q k).take corpus.length := by
  have hlen : (sortPairs (scoredList q 0 corpus)).length = corpus.length := by
    rw [length_sortPairs, length_scoredList]
  have htake : (sortPairs (scoredList q 0 corpus)).take k =
      sortPairs (scoredList q 0 corpus) :=
    List.take_of_length_le (by omega)
  have hs : faiss_search_one corpus q k =
      sortPairs (scoredList q 0 corpus) ++
        List.replicate (k - corpus.length) (FLT_MAX, -1) := by
    simp only [faiss_search_one, htake, hlen]
  rw [hs]
  refine ⟨?_, ?_, ?_, ?_⟩
  · simp only [List.length_append, List.length_replicate, hlen]
    omega
  · rw [List.take_left' hlen]
    exact sortPairs_perm _
  · rw [List.drop_left' hlen]
  · intro t ht
    rw [List.take_left' hlen]
    exact (sortPairs_perm _).mem_iff.2 (mem_scoredList.2 ⟨t, ht, by simp, rfl⟩)

/-- C5 witness: store of one vector queried with k = 3. -/
theorem C5_underfull_search_witness :
    ((1 : Nat) < 3) ∧
    (faiss_search_one [[(0 : Int), 0]] [(0 : Int), 0] 3).length = 3 ∧
    (faiss_search_one [[(0 : Int), 0]] [(0 : Int), 0] 3).drop 1 =
      List.replicate 2 (FLT_MAX, -1) := by
  refine ⟨by decide, ?_, ?_⟩
  · exact (C5_underfull_search [[(0 : Int), 0]] [(0 : Int), 0] 3 (by decide)).1
  · simpa using
      (C5_underfull_search [[(0 : Int), 0]] [(0 : Int), 0] 3 (by decide)).2.2.1

theorem processFiles_oversized_fails
    (embed : List Nat → Except String (List Int)) (files : List UploadFile)
    (h : ∃ f ∈ files, f.content.length > 10 * 1024 * 1024) :
    ∃ err, processFiles embed files = .error err := by
  induction files with
  | nil => simp at h
  | cons f rest ih =>
    by_cases hct : f.content_type = "image/jpeg" ∨ f.content_type = "image/png"
    · by_cases hsz : f.content.length > 10 * 1024 * 1024
      · have hpi : process_image embed f.content =
            .error (400, "Image size exceeds 10 MB") := by
          unfold process_image
          rw [if_pos hsz]
        refine ⟨(400, "Image size exceeds 10 MB"), ?_⟩
        simp only [processFiles]
        rw [if_pos hct, hpi]
      · obtain ⟨g, hg, hgsz⟩ := h
        rcases List.mem_cons.1 hg with rfl | hgrest
        · exact absurd hgsz hsz
        · obtain ⟨err, he⟩ := ih ⟨g, hgrest, hgsz⟩
          cases hpi : process_image embed f.content with
          | error err2 =>
            refine ⟨err2, ?_⟩
            simp only [processFiles]
            rw [if_pos hct, hpi]
          | ok v =>
            refine ⟨err, ?_⟩
            simp only [processFiles]
            rw [if_pos hct, hpi, he]
    · refine ⟨(400, "Unsupported file type: " ++ f.content_type), ?_⟩
      simp only [processFiles]
      rw [if_neg hct]

theorem processBase64_oversized_fails
    (embed : List Nat → Except String (List Int)) (b64 : List (List Nat))
    (h : ∃ b ∈ b64, b.length > 10 * 1024 * 1024) :
    ∃ err, processBase64 embed b64 = .error err := by
  induction b64 with
  | nil => simp at h
  | cons b rest ih =>
    by_cases hsz : b.length > 10 * 1024 * 1024
    · have hpi : process_image embed b =
          .error (400, "Image size exceeds 10 MB") := by
        unfold process_image
        rw [if_pos hsz]
      refine ⟨(500, "Error processing Base64 image: " ++ toString (400 : Nat)
        ++ ": " ++ "Image size exceeds 10 MB"), ?_⟩
      simp only [processBase64]
      rw [hpi]
    · obtain ⟨g, hg, hgsz⟩ := h
      rcases List.mem_cons.1 hg with rfl | hgrest
      · exact absurd hgsz hsz
      · obtain ⟨err, he⟩ := ih ⟨g, hgrest, hgsz⟩
        cases hpi : process_image embed b with
        | error err2 =>
          refine ⟨(500, "Error processing Base64 image: " ++ toString err2.1
            ++ ": " ++ err2.2), ?_⟩
          simp only [processBase64]
          rw [hpi]
        | ok v =>
          refine ⟨err, ?_⟩
          simp only [processBase64]
          rw [hpi, he]

theorem processUrls_oversized_fails
    (embed : List Nat → Except String (List Int)) (urls : List UrlFetch)
    (h : ∃ u ∈ urls, ∃ st : Nat, ∃ content : List Nat,
      u.outcome = Except.ok (st, content) ∧
        content.length > 10 * 1024 * 1024) :
    ∃ err, processUrls embed urls = .error err := by
  induction urls with
  | nil => simp at h
  | cons u rest ih =>
    cases hout : u.outcome with
    | error msg =>
      refine ⟨(500, "Error processing image from URL: " ++ msg), ?_⟩
      simp only [processUrls]
      rw [hout]
    | ok p =>
      obtain ⟨st, content⟩ := p
      by_cases hst : st ≠ 200
      · refine ⟨(400, "Failed to download image from URL: " ++ u.url ++
          " (Status code: " ++ toString st ++ ")"), ?_⟩
        simp only [processUrls]
        rw [hout]
        simp [hst]
      · push_neg at hst
        by_cases hempty : content = []
        · refine ⟨(400, "Downloaded image is empty from URL: " ++ u.url), ?_⟩
          simp only [processUrls]
          rw [hout]
          simp [hst, hempty]
        · obtain ⟨g, hg, st', content', hgout, hgsz⟩ := h
          rcases List.mem_cons.1 hg with rfl | hgrest
          · rw [hout] at hgout
            have hpair : (st, content) = (st', content') :=
              Except.ok.inj hgout
            rw [Prod.mk.injEq] at hpair
            obtain ⟨rfl, rfl⟩ := hpair
            have hpi : process_image embed content =
                .error (400, "Image size exceeds 10 MB") := by
              unfold process_image
              rw [if_pos hgsz]
            refine ⟨(400, "Image size exceeds 10 MB"), ?_⟩
            simp only [processUrls]
            rw [hout]
            simp [hst, hempty, hpi]
          · obtain ⟨err, he⟩ := ih ⟨g, hgrest, st', content', hgout, hgsz⟩
            cases hpi : process_image embed content with
            | error err2 =>
              refine ⟨err2, ?_⟩
              simp only [processUrls]
              rw [hout]
              simp [hst, hempty, hpi]
            | ok v =>
              refine ⟨err, ?_⟩
              simp only [processUrls]
              rw [hout]
              simp [hst, hempty, hpi, he]

/-- C9 counterexample: a single oversized Base64-submitted image does not
fail with the client error "Image size exceeds 10 MB": the `except
Exception` handler of the Base64 loop catches the 400 and re-raises it as
the server error 500 with detail "Error processing Base64 image: 400: Image
size exceeds 10 MB", so the claimed client-error failure is false on the
Base64 ingestion path. -/
theorem C9_counterexample :
    (add_images (fun _ => Except.ok [(0 : Int)]) (VectorDB.init 1) "t" []
      [List.replicate 10485761 0] []).2 =
      .error (500,
        "Error processing Base64 image: 400: Image size exceeds 10 MB") ∧
    (500 : Nat) ≠ 400 := by
  have key : ∀ B : List Nat, B.length > 10 * 1024 * 1024 →
      (add_images (fun _ => Except.ok [(0 : Int)]) (VectorDB.init 1) "t" []
        [B] []).2 = .error (500,
          "Error processing Base64 image: 400: Image size exceeds 10 MB") := by
    intro B hB
    have hpi : process_image (fun _ => Except.ok [(0 : Int)]) B =
        .error (400, "Image size exceeds 10 MB") := by
      unfold process_image
      rw [if_pos hB]
    simp only [add_images, processFiles, processBase64]
    rw [hpi]
    rfl
  refine ⟨key (List.replicate 10485761 0) ?_, by norm_num⟩
  rw [List.length_replicate]
  norm_num

/-- C9 (amended): an ingestion batch containing an image whose byte size
exceeds 10 * 1024 * 1024 — in any of the three submission paths: a multipart
file, a Base64 payload, or a URL fetch that returned a body — fails before
any embedding is attempted (`process_image` rejects such bytes with the 400
client error "Image size exceeds 10 MB" for every embedding function), and
the whole `add_images` call returns an error with the store unchanged, so no
vector of the batch is added.  On the Base64 path the 400 is re-raised as
the server error 500 "Error processing Base64 image: 400: Image size exceeds
10 MB", so the failure observed by the caller there is not a client error. -/
theorem C9_oversized_never_committed
    (embed embed2 : List Nat → Except String (List Int)) (db : VectorDB)
    (rid : String) (files : List UploadFile) (base64_images : List (List Nat))
    (image_urls : List UrlFetch)
    (h : (∃ f ∈ files, f.content.length > 10 * 1024 * 1024) ∨
      (∃ b ∈ base64_images, b.length > 10 * 1024 * 1024) ∨
      (∃ u ∈ image_urls, ∃ st : Nat, ∃ content : List Nat,
        u.outcome = Except.ok (st, content) ∧
          content.length > 10 * 1024 * 1024)) :
    (∀ bytes : List Nat, bytes.length > 10 * 1024 * 1024 →
      process_image embed2 bytes = .error (400, "Image size exceeds 10 MB")) ∧
    (∀ bytes : List Nat, ∀ rest : List (List Nat),
      bytes.length > 10 * 1024 * 1024 →
      processBase64 embed2 (bytes :: rest) = .error (500,
        "Error processing Base64 image: 400: Image size exceeds 10 MB")) ∧
    (add_images embed db rid files base64_images image_urls).1 = db ∧
    ∃ err, (add_images embed db rid files base64_images image_urls).2 =
      .error err := by
  have habort :
      (add_images embed db rid files base64_images image_urls).1 = db ∧
      ∃ err, (add_images embed db rid files base64_images image_urls).2 =
        .error err := by
    rcases h with hf | hb | hu
    · obtain ⟨err, he⟩ := processFiles_oversized_fails embed files hf
      constructor
      · simp only [add_images]
        rw [he]
      · exact ⟨err, by simp only [add_images]; rw [he]⟩
    · cases hpf : processFiles embed files with
      | error err =>
        constructor
        · simp only [add_images]
          rw [hpf]
        · exact ⟨err, by simp only [add_images]; rw [hpf]⟩
      | ok vs1 =>
        obtain ⟨err, he⟩ := processBase64_oversized_fails embed base64_images hb
        constructor
        · simp only [add_images]
          rw [hpf, he]
        · exact ⟨err, by simp only [add_images]; rw [hpf, he]⟩
    · cases hpf : processFiles embed files with
      | error err =>
        constructor
        · simp only [add_images]
          rw [hpf]
        · exact ⟨err, by simp only [add_images]; rw [hpf]⟩
      | ok vs1 =>
        cases hpb : processBase64 embed base64_images with
        | error err =>
          constructor
          · simp only [add_images]
            rw [hpf, hpb]
          · exact ⟨err, by simp only [add_images]; rw [hpf, hpb]⟩
        | ok vs2 =>
          obtain ⟨err, he⟩ := processUrls_oversized_fails embed image_urls hu
          constructor
          · simp only [add_images]
            rw [hpf, hpb, he]
          · exact ⟨err, by simp only [add_images]; rw [hpf, hpb, he]⟩
  refine ⟨?_, ?_, habort.1, habort.2⟩
  · intro bytes hbig
    unfold process_image
    rw [if_pos hbig]
  · intro bytes rest hbig
    have hpi : process_image embed2 bytes =
        .error (400, "Image size exceeds 10 MB") := by
      unfold process_image
      rw [if_pos hbig]
    simp only [processBase64]
    rw [hpi]
    rfl

/-- C9 witness: a single 10 MiB + 1 byte JPEG multipart upload is rejected
with the 400, the same bytes submitted via Base64 yield the rewrapped 500,
and the store stays empty — for an embedding function that would accept
them. -/
theorem C9_oversized_never_committed_witness :
    (∃ f ∈ [UploadFile.mk "image/jpeg" (List.replicate 10485761 0)],
      f.content.length > 10 * 1024 * 1024) ∧
    process_image (fun _ => Except.ok [(0 : Int)])
      (List.replicate 10485761 0) =
        .error (400, "Image size exceeds 10 MB") ∧
    processBase64 (fun _ => Except.ok [(0 : Int)])
      [List.replicate 10485761 0] = .error (500,
        "Error processing Base64 image: 400: Image size exceeds 10 MB") ∧
    (add_images (fun _ => Except.ok [(0 : Int)]) (VectorDB.init 1) "t"
      [UploadFile.mk "image/jpeg" (List.replicate 10485761 0)] [] []).1 =
      VectorDB.init 1 := by
  have hsz : (List.replicate 10485761 (0 : Nat)).length >
      10 * 1024 * 1024 := by
    rw [List.length_replicate]
    norm_num
  have hmem : ∃ f ∈ [UploadFile.mk "image/jpeg" (List.replicate 10485761 0)],
      f.content.length > 10 * 1024 * 1024 :=
    ⟨UploadFile.mk "image/jpeg" (List.replicate 10485761 0),
      List.mem_singleton.2 rfl, hsz⟩
  refine ⟨hmem, ?_, ?_, ?_⟩
  · exact (C9_oversized_never_committed (fun _ => Except.ok [(0 : Int)])
      (fun _ => Except.ok [(0 : Int)]) (VectorDB.init 1) "t"
      [UploadFile.mk "image/jpeg" (List.replicate 10485761 0)] [] []
      (Or.inl hmem)).1 (List.replicate 10485761 0) hsz
  · exact (C9_oversized_never_committed (fun _ => Except.ok [(0 : Int)])
      (fun _ => Except.ok [(0 : Int)]) (VectorDB.init 1) "t"
      [UploadFile.mk "image/jpeg" (List.replicate 10485761 0)] [] []
      (Or.inl hmem)).2.1 (List.replicate 10485761 0) [] hsz
  · exact (C9_oversized_never_committed (fun _ => Except.ok [(0 : Int)])
      (fun _ => Except.ok [(0 : Int)]) (VectorDB.init 1) "t"
      [UploadFile.mk "image/jpeg" (List.replicate 10485761 0)] [] []
      (Or.inl hmem)).2.2.1

/-- C3 counterexample: for a request of two identical vectors at corpus range
[0, 2), the duplicate set is {1, 0}, which contains index 0 — the own index
of the request's first query vector — so the claim that the result never
contains a query vector's own index is false (each index enters via the
other query). -/
theorem C3_counterexample :
    all_duplicates (add_vectors (VectorDB.init 1) "t" [[(0 : Int)], [0]]).1
      "t" 0 2 = .ok [1, 0] ∧
    (add_vectors (VectorDB.init 1) "t" [[(0 : Int)], [0]]).1.request_map.lookup
      "t" = some (0, 2) ∧
    (0 : Int) ∈ [(1 : Int), 0] := by
  exact ⟨rfl, rfl, by decide⟩

/-- C3 (amended): for a registered request with range [start, end), the
duplicate set contains a corpus index j iff some query index i in
[start, end) has j among its k-nearest-neighbor hits with j ≠ i (self-match
excluded by index equality only, never by vector-value equality) and
squared-L2 distance(vector[i], vector[j]) ≤ threshold (inclusive).  In
particular j never enters through its own query's hit list, but the result
may contain a query vector's own index contributed by a different query of
the same request. -/
theorem C3_duplicate_set_membership (db : VectorDB) (rid : String)
    (threshold : Int) (k : Nat) (s e : Nat)
    (hlk : db.request_map.lookup rid = some (s, e))
    (heN : e ≤ db.vectors.length)
    (hsync : db.index = db.vectors)
    (j : Nat) (hj : j < db.vectors.length)
    (dups : List Int) (hd : all_duplicates db rid threshold k = .ok dups) :
    (j : Int) ∈ dups ↔
      ∃ i : Nat, s ≤ i ∧ i < e ∧ i ≠ j ∧
        (sqDist (db.vectors.getD i []) (db.vectors.getD j []), (j : Int)) ∈
          faiss_search_one db.vectors (db.vectors.getD i []) k ∧
        sqDist (db.vectors.getD i []) (db.vectors.getD j []) ≤ threshold := by
  have hsd := search_duplicates_found (k := k) hlk
  rw [hsync] at hsd
  have hd' : dups = collect_duplicates threshold s
      (((db.vectors.drop s).take (e - s)).map
        (fun q => faiss_search_one db.vectors q k)) := by
    simp only [all_duplicates, hlk, hsd, Except.ok.injEq] at hd
    exact hd.symm
  subst hd'
  rw [mem_collect_duplicates]
  constructor
  · rintro ⟨i0, hits, hres, d, hdmem, hne, hle⟩
    have hlen : i0 < e - s := by
      by_contra hge
      push_neg at hge
      have hnone : (((db.vectors.drop s).take (e - s)).map
          (fun q => faiss_search_one db.vectors q k))[i0]? = none := by
        apply List.getElem?_eq_none
        simp only [List.length_map, List.length_take, List.length_drop]
        omega
      rw [hnone] at hres
      exact Option.noConfusion hres
    have hq : (((db.vectors.drop s).take (e - s)).map
        (fun q => faiss_search_one db.vectors q k))[i0]? =
          some (faiss_search_one db.vectors (db.vectors.getD (s + i0) []) k) := by
      rw [List.getElem?_map, slice_getElem? hlen heN]
      rfl
    rw [hq] at hres
    obtain rfl : hits = faiss_search_one db.vectors
        (db.vectors.getD (s + i0) []) k := (Option.some.inj hres).symm
    rcases faiss_mem_elim hdmem with hsc | hpad
    · obtain ⟨t, ht, hx, hdq⟩ := mem_scoredList.1 hsc
      have hjt : t = j := by
        have h0 : j = 0 + t := by exact_mod_cast hx
        omega
      subst hjt
      refine ⟨s + i0, Nat.le_add_right _ _, by omega, ?_, ?_, ?_⟩
      · intro hEq
        exact hne (by rw [hEq])
      · rw [← hdq]
        exact hdmem
      · rw [← hdq]
        exact hle
    · have hsnd : ((j : Nat) : Int) = -1 := congrArg Prod.snd hpad
      omega
  · rintro ⟨i, hsle, hilt, hij, hmem, hle⟩
    have harith : s + (i - s) = i := by omega
    refine ⟨i - s, faiss_search_one db.vectors (db.vectors.getD i []) k, ?_,
      sqDist (db.vectors.getD i []) (db.vectors.getD j []), hmem, ?_, hle⟩
    · have hlen : i - s < e - s := by omega
      rw [List.getElem?_map, slice_getElem? hlen heN, harith]
      rfl
    · rw [harith]
      intro hEq
      exact hij (by exact_mod_cast hEq.symm)

/-- C3 witness: the membership characterisation instantiated on a store of
two identical vectors under token "t", queried with k = 2 and threshold 0,
at corpus index 0. -/
theorem C3_duplicate_set_membership_witness :
    (0 : Int) ∈ [(1 : Int), 0] ↔
      ∃ i : Nat, 0 ≤ i ∧ i < 2 ∧ i ≠ 0 ∧
        (sqDist ((add_vectors (VectorDB.init 1) "t"
              [[(0 : Int)], [0]]).1.vectors.getD i [])
            ((add_vectors (VectorDB.init 1) "t"
              [[(0 : Int)], [0]]).1.vectors.getD 0 []), (0 : Int)) ∈
          faiss_search_one
            (add_vectors (VectorDB.init 1) "t" [[(0 : Int)], [0]]).1.vectors
            ((add_vectors (VectorDB.init 1) "t"
              [[(0 : Int)], [0]]).1.vectors.getD i []) 2 ∧
        sqDist ((add_vectors (VectorDB.init 1) "t"
            [[(0 : Int)], [0]]).1.vectors.getD i [])
          ((add_vectors (VectorDB.init 1) "t"
            [[(0 : Int)], [0]]).1.vectors.getD 0 []) ≤ 0 :=
  C3_duplicate_set_membership
    (add_vectors (VectorDB.init 1) "t" [[(0 : Int)], [0]]).1 "t" 0 2 0 2
    (by decide) (by decide) rfl 0 (by decide) [1, 0] rfl
